import Mathlib

/-
Verification development for the FaceSense single-page client
(src/src/App.jsx).  The claims under study all concern the attendance
capture subsystem: the transport client function `api`, and the
`AttendCapture` component with its operations `stopStream`,
`startSession`, `streamFrames`, `captureFrame`, `completeSession` and
`manualPresent`.

The JavaScript is embedded shallowly:

* The transport client `api` becomes a pure function from an abstract
  HTTP response to `Except String ApiSuccess`, mirroring the response
  handling in App.jsx lines 37-56 (the throw on a non-ok response, the
  text/csv and application/json content-type dispatch).

* The `AttendCapture` component's React state (useState hooks
  `sessionId`, `status`, `result`, `streaming`, plus the video
  element's `srcObject` and the liveness of the attached media
  stream's tracks) becomes the record `CompState`.  The component
  always renders its video and canvas elements, so the model assumes
  both refs are populated.

* Each external effect (getUserMedia, the four backend calls, the
  100 ms timer) is resolved by an oracle record `Env` and recorded in
  an event trace `List Ev`, so that theorems can speak about which
  requests a code path issues.  The JavaScript control flow —
  including every try/catch — is transcribed statement by statement;
  the asynchronous code is straight-line per session, so sequential
  state passing is faithful.

* User-level actions on the rendered component (clicking the start
  button, which is disabled while `streaming` is true; clicking the
  manual button; unmounting, whose effect hook runs `stopStream`)
  become the `step` relation, and component histories are lists of
  environment/action pairs folded by `runActs`.
-/

namespace FaceSense

/-- Capture outcome returned by the attendance completion endpoint:
the response shape of POST /api/attendance/complete, namely
userName, emotion and timestamp (App.jsx line 26). The emotion label
is optional: the result panel falls back to showing the text manual
when it is absent (App.jsx line 377). -/
structure Outcome where
  userName : String
  emotion : Option String
  timestamp : String
deriving DecidableEq, Repr

/-- Abstract view of the fetch response consumed by the transport
client `api`: the ok flag (status in the 2xx range), the numeric
status code, the body text, and the content-type header value
(empty string when the header is absent, as in App.jsx line 52). -/
structure HttpResponse where
  ok : Bool
  status : Nat
  bodyText : String
  contentType : String
deriving DecidableEq, Repr

/-- The three successful return shapes of `api` (App.jsx lines 52-55):
the raw response when the content type is text/csv (the caller handles
the download), the parsed JSON body, or the plain body text. -/
inductive ApiSuccess where
  | csv (res : HttpResponse)
  | json (body : String)
  | text (body : String)
deriving DecidableEq, Repr

/-- The JavaScript String.prototype.includes check used on the
content-type header: substring containment on the character data. -/
def strIncludes (s sub : String) : Bool :=
  decide (sub.data <:+: s.data)

/-- Transport client, App.jsx lines 37-56.  Request construction
(method, headers, body serialisation) does not affect any claim; the
embedding starts from the received response.  A non-ok response
throws an Error whose message is the body text when that text is
truthy (non-empty) and the string Request failed: followed by the
status code otherwise; an ok response is dispatched on its
content-type header. -/
def api (res : HttpResponse) : Except String ApiSuccess :=
  if res.ok = false then
    Except.error (if res.bodyText = "" then "Request failed: " ++ toString res.status
                  else res.bodyText)
  else if strIncludes res.contentType "text/csv" then
    Except.ok (ApiSuccess.csv res)
  else if strIncludes res.contentType "application/json" then
    Except.ok (ApiSuccess.json res.bodyText)
  else
    Except.ok (ApiSuccess.text res.bodyText)

/-- Body of a POST /api/attendance/complete request: either the
session variant carrying the session identifier (App.jsx line 332) or
the manual-flag variant carrying no session handle (line 346). -/
inductive CompleteBody where
  | session (sid : Nat)
  | manual
deriving DecidableEq, Repr

/-- Externally visible events of one AttendCapture component history:
the getUserMedia request, the three backend attendance calls, and the
inter-frame timer. -/
inductive Ev where
  | getUserMedia
  | apiStart
  | apiFrame (sid : Nat) (img : Option String)
  | apiComplete (body : CompleteBody)
  | delay (ms : Nat)
deriving DecidableEq, Repr

/-- State of one AttendCapture component instance (App.jsx lines
262-269): the four useState hooks, the media stream attached to the
video element (`srcObject`), and the identifiers of media streams
whose tracks have not been stopped (`liveStreams`).  Session
identifiers and stream identifiers are drawn from Nat. -/
structure CompState where
  sessionId : Option Nat
  status : String
  result : Option Outcome
  streaming : Bool
  srcObject : Option Nat
  liveStreams : List Nat
deriving DecidableEq, Repr

/-- Oracle for the external world during one user action: whether
getUserMedia grants a camera stream (and its identifier), and the
results of the session-start, per-frame, completion and
manual-completion requests, each already filtered through `api`
(so a failure carries the thrown error message). -/
structure Env where
  camera : Option Nat
  startResp : Except String Nat
  frameResp : Nat → Except String Unit
  completeResp : Except String Outcome
  manualResp : Except String Outcome

/-- Initial component state: the useState initialisers of App.jsx
lines 266-269 (sessionId null, status Idle, result null, streaming
false), no stream attached, no live tracks. -/
def initState : CompState :=
  { sessionId := none
    status := "Idle"
    result := none
    streaming := false
    srcObject := none
    liveStreams := [] }

/-- stopStream, App.jsx lines 275-279: stop every track of the stream
currently attached to the video element, if any, then clear the
streaming flag.  The srcObject field itself is not cleared by the
source, only its tracks are stopped. -/
def stopStream (st : CompState) : CompState :=
  match st.srcObject with
  | some s => { st with liveStreams := st.liveStreams.filter (fun x => x != s)
                        streaming := false }
  | none => { st with streaming := false }

/-- The constant frame count of the streaming loop
(const frames = 20, App.jsx line 301). -/
def frames : Nat := 20

/-- The data URL produced by canvas.toDataURL for the captured frame
(App.jsx line 327); its exact content is irrelevant to every claim. -/
def frameDataUrl : String := "data:image/jpeg;base64,frame"

/-- captureFrame, App.jsx lines 312-328: with the video and canvas
refs populated (the component renders both elements unconditionally),
it draws the current video frame plus the guide rectangle and returns
the encoded JPEG data URL. -/
def captureFrame (_st : CompState) : Option String :=
  some frameDataUrl

/-- One iteration of the streaming loop body (App.jsx lines 303-307):
capture a frame, post it to /api/attendance/frame inside a try whose
catch ignores the error, then await a 100 ms timeout.  `i` is the
loop index, used only to query the per-frame oracle. -/
def frameIter (env : Env) (sid : Nat) (i : Nat) (st : CompState) :
    CompState × List Ev :=
  let img := captureFrame st
  let st1 := match env.frameResp i with
    | Except.ok _ => st
    | Except.error _ => st
  (st1, [Ev.apiFrame sid img, Ev.delay 100])

/-- The for-loop of streamFrames: run `n` more iterations starting at
index `i`, threading state and concatenating traces. -/
def runFrames (env : Env) (sid : Nat) : Nat → Nat → CompState → CompState × List Ev
  | _, 0, st => (st, [])
  | i, Nat.succ n, st =>
    let p := frameIter env sid i st
    let q := runFrames env sid (i + 1) n p.1
    (q.1, p.2 ++ q.2)

/-- completeSession, App.jsx lines 330-341: post the completion
request with the session identifier; on success store the outcome and
set status Completed, on failure set the no-face status; the finally
block then runs stopStream and clears the sessionId hook on both
paths. -/
def completeSession (env : Env) (sid : Nat) (st : CompState) :
    CompState × List Ev :=
  let st1 := match env.completeResp with
    | Except.ok data => { st with result := some data, status := "Completed" }
    | Except.error _ => { st with status := "No face detected. You can use Manual Present." }
  let st2 := stopStream st1
  ({ st2 with sessionId := none }, [Ev.apiComplete (CompleteBody.session sid)])

/-- streamFrames, App.jsx lines 300-310: twenty loop iterations, then
an unconditional await of completeSession. -/
def streamFrames (env : Env) (sid : Nat) (st : CompState) :
    CompState × List Ev :=
  let p := runFrames env sid 0 frames st
  let q := completeSession env sid p.1
  (q.1, p.2 ++ q.2)

/-- startSession, App.jsx lines 281-298: clear the previous result and
set the starting status; inside the try, request the camera, attach
the stream to the video element, set the streaming flag, post the
session-start request, record the session identifier, set the
streaming status and launch streamFrames.  Any throw — camera denial
or a failed start request — lands in the catch, which only sets the
camera-unavailable status: in particular a failed start request
leaves the streaming flag set and the stream tracks running. -/
def startSession (env : Env) (st : CompState) : CompState × List Ev :=
  let st0 := { st with result := none, status := "Starting session..." }
  match env.camera with
  | none =>
    ({ st0 with status := "Camera permission denied or unavailable" },
     [Ev.getUserMedia])
  | some m =>
    let st1 := { st0 with srcObject := some m
                          liveStreams := m :: st0.liveStreams
                          streaming := true }
    match env.startResp with
    | Except.error _ =>
      ({ st1 with status := "Camera permission denied or unavailable" },
       [Ev.getUserMedia, Ev.apiStart])
    | Except.ok sid =>
      let st2 := { st1 with sessionId := some sid, status := "Streaming frames..." }
      let p := streamFrames env sid st2
      (p.1, Ev.getUserMedia :: Ev.apiStart :: p.2)

/-- manualPresent, App.jsx lines 343-352: post the completion request
with the manual flag only; on success store the outcome verbatim and
set status Manual recorded, on failure set status Manual record
failed.  No camera interaction, no stream or session bookkeeping. -/
def manualPresent (env : Env) (st : CompState) : CompState × List Ev :=
  let st0 := { st with status := "Recording manual presence..." }
  match env.manualResp with
  | Except.ok data =>
    ({ st0 with result := some data, status := "Manual recorded" },
     [Ev.apiComplete CompleteBody.manual])
  | Except.error _ =>
    ({ st0 with status := "Manual record failed" },
     [Ev.apiComplete CompleteBody.manual])

/-- User-level actions on the rendered component: clicking the start
button, clicking the manual button, and unmounting the component. -/
inductive Action where
  | clickStart
  | clickManual
  | unmount
deriving DecidableEq, Repr

/-- One user action against the component.  The start button carries
disabled set to streaming (App.jsx line 366), so clicking it while a
session is active fires no handler at all; the manual button is
always enabled; unmounting runs the effect cleanup stopStream
(App.jsx line 272). -/
def step (env : Env) (a : Action) (st : CompState) : CompState × List Ev :=
  match a with
  | Action.clickStart => if st.streaming then (st, []) else startSession env st
  | Action.clickManual => manualPresent env st
  | Action.unmount => (stopStream st, [])

/-- Fold a history of user actions, each with its own environment
oracle, over a component state. -/
def runActs : List (Env × Action) → CompState → CompState
  | [], st => st
  | (e, a) :: rest, st => runActs rest (step e a st).1

/-- Recognises a frame-send request in a trace. -/
def isFrameEv : Ev → Bool
  | Ev.apiFrame _ _ => true
  | _ => false

/-- Recognises a session-start request in a trace. -/
def isStartEv : Ev → Bool
  | Ev.apiStart => true
  | _ => false

/-- Recognises a completion request in a trace. -/
def isCompleteEv : Ev → Bool
  | Ev.apiComplete _ => true
  | _ => false

/-- One loop iteration never changes the component state and always
emits exactly one frame post followed by the 100 ms delay, whatever
the per-frame oracle answers. -/
theorem frameIter_eq (env : Env) (sid i : Nat) (st : CompState) :
    frameIter env sid i st = (st, [Ev.apiFrame sid (some frameDataUrl), Ev.delay 100]) := by
  cases h : env.frameResp i <;> simp [frameIter, captureFrame, h]

/-- The streaming for-loop unfolds to n identical post/delay pairs and
leaves the state untouched, for every environment. -/
theorem runFrames_eq (env : Env) (sid : Nat) (n : Nat) : ∀ (i : Nat) (st : CompState),
    runFrames env sid i n st =
      (st, (List.replicate n [Ev.apiFrame sid (some frameDataUrl), Ev.delay 100]).flatten) := by
  induction n with
  | zero => intro i st; rfl
  | succ k ih =>
    intro i st
    simp [runFrames, frameIter_eq, ih, List.replicate_succ]

/-- The loop trace contains exactly n frame posts. -/
theorem countP_frame_flatten (n sid : Nat) :
    ((List.replicate n [Ev.apiFrame sid (some frameDataUrl), Ev.delay 100]).flatten).countP
      isFrameEv = n := by
  induction n with
  | zero => rfl
  | succ k ih =>
    simp [List.replicate_succ, List.countP_cons, isFrameEv, ih]

/-- A concrete capture outcome used to instantiate witnesses. -/
def outcomeW : Outcome :=
  { userName := "Alice", emotion := some "happy", timestamp := "2024-01-01T00:00:00Z" }

/-- Environment in which every external interaction succeeds. -/
def envAllOk : Env :=
  { camera := some 0
    startResp := Except.ok 7
    frameResp := fun _ => Except.ok ()
    completeResp := Except.ok outcomeW
    manualResp := Except.ok outcomeW }

/-- Environment in which getUserMedia is denied. -/
def envDenied : Env :=
  { envAllOk with camera := none }

/-- Environment in which the backend session-start request fails. -/
def envStartFail : Env :=
  { envAllOk with startResp := Except.error "server error" }

/-- Environment in which the completion request fails. -/
def envCompleteFail : Env :=
  { envAllOk with completeResp := Except.error "no face" }

/-- A mid-session component state used to instantiate witnesses:
stream 0 attached and live, session 7 open. -/
def stMidSession : CompState :=
  { sessionId := some 7
    status := "Streaming frames..."
    result := none
    streaming := true
    srcObject := some 0
    liveStreams := [0] }

/-- C1: for every capture session in which frame capture proceeds, the
streaming loop runs exactly 20 iterations (frames = 20), each frame
post is followed by the fixed 100-time-unit delay, and after the
final iteration the loop unconditionally hands over to
completeSession — for every environment, i.e. independently of how
many individual frame posts succeeded or failed. -/
theorem C1_twenty_frames_then_unconditional_complete (env : Env) (sid : Nat) (st : CompState) :
    frames = 20 ∧
    (streamFrames env sid st).2 =
      (List.replicate frames [Ev.apiFrame sid (some frameDataUrl), Ev.delay 100]).flatten
        ++ [Ev.apiComplete (CompleteBody.session sid)] ∧
    (streamFrames env sid st).2.countP isFrameEv = frames ∧
    streamFrames env sid st =
      ((completeSession env sid st).1,
        (List.replicate frames [Ev.apiFrame sid (some frameDataUrl), Ev.delay 100]).flatten
          ++ (completeSession env sid st).2) := by
  refine ⟨rfl, ?_, ?_, ?_⟩
  · simp [streamFrames, runFrames_eq, completeSession]
  · simp [streamFrames, runFrames_eq, completeSession, List.countP_append,
      countP_frame_flatten, List.countP_cons, isFrameEv]
  · simp [streamFrames, runFrames_eq]

/-- Witness for C1 on a concrete session: the environment where every
call succeeds, session 7, from the initial state. -/
theorem C1_twenty_frames_then_unconditional_complete_witness :
    frames = 20 ∧
    (streamFrames envAllOk 7 initState).2 =
      (List.replicate frames [Ev.apiFrame 7 (some frameDataUrl), Ev.delay 100]).flatten
        ++ [Ev.apiComplete (CompleteBody.session 7)] ∧
    (streamFrames envAllOk 7 initState).2.countP isFrameEv = frames ∧
    streamFrames envAllOk 7 initState =
      ((completeSession envAllOk 7 initState).1,
        (List.replicate frames [Ev.apiFrame 7 (some frameDataUrl), Ev.delay 100]).flatten
          ++ (completeSession envAllOk 7 initState).2) :=
  C1_twenty_frames_then_unconditional_complete envAllOk 7 initState

/-- C2: for every capture session reaching the completion call,
whatever the completion oracle answers, the state after
completeSession has the session handle cleared, the streaming flag
down, and the tracks of the stream attached to the video element
stopped — the cleanup runs on every exit path. -/
theorem C2_unconditional_cleanup_on_completion (env : Env) (sid : Nat) (st : CompState) :
    (completeSession env sid st).1.sessionId = none ∧
    (completeSession env sid st).1.streaming = false ∧
    ∀ s, st.srcObject = some s → s ∉ (completeSession env sid st).1.liveStreams := by
  refine ⟨rfl, ?_, ?_⟩
  · cases h : env.completeResp <;> cases h2 : st.srcObject <;>
      simp [completeSession, stopStream, h, h2]
  · intro s hs
    cases h : env.completeResp <;>
      simp [completeSession, stopStream, h, hs, List.mem_filter]

/-- Witness for C2 at a concrete mid-session state: after completion
(here a successful one), the session handle is gone, streaming is
off, and stream 0 is no longer live. -/
theorem C2_unconditional_cleanup_on_completion_witness :
    (completeSession envAllOk 7 stMidSession).1.sessionId = none ∧
    (completeSession envAllOk 7 stMidSession).1.streaming = false ∧
    0 ∉ (completeSession envAllOk 7 stMidSession).1.liveStreams :=
  ⟨(C2_unconditional_cleanup_on_completion envAllOk 7 stMidSession).1,
   (C2_unconditional_cleanup_on_completion envAllOk 7 stMidSession).2.1,
   (C2_unconditional_cleanup_on_completion envAllOk 7 stMidSession).2.2 0 rfl⟩

/-- C7: the streaming loop is insensitive to per-frame failures: for
every environment the loop leaves the component state untouched,
posts exactly one frame per iteration, and its whole run (state and
trace) equals the run in which every frame send succeeds — no user
notification, no error accumulation, no early abort. -/
theorem C7_frame_failures_swallowed (env : Env) (sid i n : Nat) (st : CompState) :
    (runFrames env sid i n st).1 = st ∧
    (runFrames env sid i n st).2.countP isFrameEv = n ∧
    runFrames env sid i n st =
      runFrames { env with frameResp := fun _ => Except.ok () } sid i n st := by
  refine ⟨?_, ?_, ?_⟩
  · simp [runFrames_eq]
  · simp [runFrames_eq, List.countP_cons, isFrameEv]
  · simp [runFrames_eq]

/-- Witness for C7 on a concrete run of the full twenty-iteration
loop in an environment where every frame send fails. -/
theorem C7_frame_failures_swallowed_witness :
    (runFrames { envAllOk with frameResp := fun _ => Except.error "drop" } 7 0 frames
        initState).1 = initState ∧
    (runFrames { envAllOk with frameResp := fun _ => Except.error "drop" } 7 0 frames
        initState).2.countP isFrameEv = frames ∧
    runFrames { envAllOk with frameResp := fun _ => Except.error "drop" } 7 0 frames
        initState =
      runFrames { { envAllOk with frameResp := fun _ => Except.error "drop" } with
          frameResp := fun _ => Except.ok () } 7 0 frames initState :=
  C7_frame_failures_swallowed { envAllOk with frameResp := fun _ => Except.error "drop" }
    7 0 frames initState

/-- C8: manualPresent issues exactly one request — a completion call
whose body is the manual flag with no session handle — so it never
touches the camera (no getUserMedia event), never posts a frame and
never starts a session; it leaves the stream, streaming flag and
session handle untouched, and on success displays the backend's
outcome object verbatim. -/
theorem C8_manual_fallback_single_manual_complete (env : Env) (st : CompState) :
    (manualPresent env st).2 = [Ev.apiComplete CompleteBody.manual] ∧
    (manualPresent env st).1.liveStreams = st.liveStreams ∧
    (manualPresent env st).1.srcObject = st.srcObject ∧
    (manualPresent env st).1.streaming = st.streaming ∧
    (manualPresent env st).1.sessionId = st.sessionId ∧
    ∀ d, env.manualResp = Except.ok d → (manualPresent env st).1.result = some d := by
  refine ⟨?_, ?_, ?_, ?_, ?_, ?_⟩
  · cases h : env.manualResp <;> simp [manualPresent, h]
  · cases h : env.manualResp <;> simp [manualPresent, h]
  · cases h : env.manualResp <;> simp [manualPresent, h]
  · cases h : env.manualResp <;> simp [manualPresent, h]
  · cases h : env.manualResp <;> simp [manualPresent, h]
  · intro d hd
    simp [manualPresent, hd]

/-- Witness for C8 from the idle state with a succeeding backend: one
manual completion request, state bookkeeping untouched, outcome
displayed as returned. -/
theorem C8_manual_fallback_single_manual_complete_witness :
    (manualPresent envAllOk initState).2 = [Ev.apiComplete CompleteBody.manual] ∧
    (manualPresent envAllOk initState).1.liveStreams = initState.liveStreams ∧
    (manualPresent envAllOk initState).1.result = some outcomeW :=
  ⟨(C8_manual_fallback_single_manual_complete envAllOk initState).1,
   (C8_manual_fallback_single_manual_complete envAllOk initState).2.1,
   (C8_manual_fallback_single_manual_complete envAllOk initState).2.2.2.2.2 outcomeW rfl⟩

/-- C9: when the completion request fails, the status becomes exactly
the no-face message, the streaming flag and session handle are
cleared, the attached stream's tracks are stopped, and the trace of
completeSession holds exactly one completion request — no automatic
retry. -/
theorem C9_completion_failure_terminal_status (env : Env) (sid : Nat) (st : CompState)
    (e : String) (h : env.completeResp = Except.error e) :
    (completeSession env sid st).1.status = "No face detected. You can use Manual Present." ∧
    (completeSession env sid st).1.streaming = false ∧
    (completeSession env sid st).1.sessionId = none ∧
    (∀ s, st.srcObject = some s → s ∉ (completeSession env sid st).1.liveStreams) ∧
    (completeSession env sid st).2 = [Ev.apiComplete (CompleteBody.session sid)] := by
  refine ⟨?_, ?_, ?_, ?_, ?_⟩
  · cases h2 : st.srcObject <;> simp [completeSession, stopStream, h, h2]
  · cases h2 : st.srcObject <;> simp [completeSession, stopStream, h, h2]
  · simp [completeSession, h]
  · intro s hs
    simp [completeSession, stopStream, h, hs, List.mem_filter]
  · simp [completeSession, h]

/-- Witness for C9 at a concrete mid-session state with a failing
completion backend. -/
theorem C9_completion_failure_terminal_status_witness :
    (completeSession envCompleteFail 7 stMidSession).1.status =
      "No face detected. You can use Manual Present." ∧
    (completeSession envCompleteFail 7 stMidSession).1.streaming = false ∧
    (completeSession envCompleteFail 7 stMidSession).1.sessionId = none ∧
    0 ∉ (completeSession envCompleteFail 7 stMidSession).1.liveStreams ∧
    (completeSession envCompleteFail 7 stMidSession).2 =
      [Ev.apiComplete (CompleteBody.session 7)] :=
  ⟨(C9_completion_failure_terminal_status envCompleteFail 7 stMidSession "no face" rfl).1,
   (C9_completion_failure_terminal_status envCompleteFail 7 stMidSession "no face" rfl).2.1,
   (C9_completion_failure_terminal_status envCompleteFail 7 stMidSession "no face" rfl).2.2.1,
   (C9_completion_failure_terminal_status envCompleteFail 7 stMidSession "no face" rfl).2.2.2.1 0 rfl,
   (C9_completion_failure_terminal_status envCompleteFail 7 stMidSession "no face" rfl).2.2.2.2⟩

/-- C5: when the backend session-start request fails, the throw lands
in the catch of startSession before streamFrames is launched, so the
attempt issues no frame-send request at all (and in fact no
completion request either). -/
theorem C5_start_failure_aborts_before_streaming (env : Env) (st : CompState)
    (e : String) (h : env.startResp = Except.error e) :
    (startSession env st).2.countP isFrameEv = 0 ∧
    (startSession env st).2.countP isCompleteEv = 0 := by
  cases hc : env.camera <;>
    simp [startSession, hc, h, List.countP_cons, isFrameEv, isCompleteEv]

/-- Witness for C5: with the camera granted but the start request
failing, the attempt posts no frame and no completion. -/
theorem C5_start_failure_aborts_before_streaming_witness :
    (startSession envStartFail initState).2.countP isFrameEv = 0 ∧
    (startSession envStartFail initState).2.countP isCompleteEv = 0 :=
  C5_start_failure_aborts_before_streaming envStartFail initState "server error" rfl

/-- C6: when getUserMedia denies camera access, startSession sets the
status to exactly the camera-unavailable string and its trace is the
lone getUserMedia request — in particular no session-start request is
issued for that attempt. -/
theorem C6_camera_denied_status_and_no_start (env : Env) (st : CompState)
    (h : env.camera = none) :
    (startSession env st).1.status = "Camera permission denied or unavailable" ∧
    (startSession env st).2 = [Ev.getUserMedia] ∧
    (startSession env st).2.countP isStartEv = 0 := by
  refine ⟨?_, ?_, ?_⟩ <;> simp [startSession, h, List.countP_cons, isStartEv]

/-- Witness for C6 in the concrete camera-denied environment. -/
theorem C6_camera_denied_status_and_no_start_witness :
    (startSession envDenied initState).1.status =
      "Camera permission denied or unavailable" ∧
    (startSession envDenied initState).2 = [Ev.getUserMedia] ∧
    (startSession envDenied initState).2.countP isStartEv = 0 :=
  C6_camera_denied_status_and_no_start envDenied initState rfl

/-- A non-ok response whose body text is empty, with status code 500. -/
def emptyBodyFailure : HttpResponse :=
  { ok := false, status := 500, bodyText := "", contentType := "" }

/-- C10 counterexample: on a non-ok response with an empty body, the
error thrown by the transport client carries the fallback message
built from the status code, not the response body text — refuting
the claim that the message is always the body text. -/
theorem C10_counterexample_empty_body_fallback :
    api emptyBodyFailure = Except.error "Request failed: 500" ∧
    emptyBodyFailure.bodyText ≠ "Request failed: 500" := by
  constructor
  · rfl
  · decide

/-- C10 (amended): for every request, a non-ok HTTP response is
surfaced as a thrown failure whose message is the response body text
when that text is non-empty, and the fallback string Request failed:
followed by the status code when the body is empty. -/
theorem C10_amended_nonok_surfaced_as_error (res : HttpResponse) (h : res.ok = false) :
    api res = Except.error
      (if res.bodyText = "" then "Request failed: " ++ toString res.status
       else res.bodyText) := by
  simp [api, h]

/-- Witness for the amended C10 on a concrete non-ok response with a
non-empty body: the body text is the message. -/
theorem C10_amended_nonok_surfaced_as_error_witness :
    api { ok := false, status := 403, bodyText := "forbidden", contentType := "" }
      = Except.error "forbidden" :=
  C10_amended_nonok_surfaced_as_error
    { ok := false, status := 403, bodyText := "forbidden", contentType := "" } rfl

/-- Resource invariant of one AttendCapture instance: at most one
media stream has live tracks, no stream is live while the streaming
flag is down, and any live stream is the one attached to the video
element. -/
def Inv (st : CompState) : Prop :=
  st.liveStreams.length ≤ 1 ∧
  (st.streaming = false → st.liveStreams = []) ∧
  ∀ s, s ∈ st.liveStreams → st.srcObject = some s

/-- A state with no live stream satisfies the resource invariant. -/
theorem inv_of_no_live (st : CompState) (h : st.liveStreams = []) : Inv st := by
  refine ⟨by simp [h], fun _ => h, fun s hs => ?_⟩
  simp [h] at hs

/-- The initial component state satisfies the resource invariant. -/
theorem initState_inv : Inv initState :=
  inv_of_no_live initState rfl

/-- Under the invariant, stopStream stops every live track: the video
element's stream is the only candidate, and its tracks are stopped. -/
theorem stopStream_clears (st : CompState) (h : Inv st) :
    (stopStream st).liveStreams = [] ∧ (stopStream st).streaming = false := by
  obtain ⟨_, _, hmem⟩ := h
  cases hc : st.srcObject with
  | none =>
    refine ⟨?_, by simp [stopStream, hc]⟩
    cases hl : st.liveStreams with
    | nil => simp [stopStream, hc, hl]
    | cons a tl =>
      have := hmem a (by simp [hl])
      rw [hc] at this
      cases this
  | some s0 =>
    refine ⟨?_, by simp [stopStream, hc]⟩
    simp only [stopStream, hc]
    rw [List.filter_eq_nil_iff]
    intro a ha
    have := hmem a ha
    rw [hc] at this
    cases this
    simp

/-- The state left by completeSession carries no live stream and a
lowered streaming flag, provided the incoming state satisfied the
invariant. -/
theorem completeSession_clears (env : Env) (sid : Nat) (st : CompState) (h : Inv st) :
    (completeSession env sid st).1.liveStreams = [] ∧
    (completeSession env sid st).1.streaming = false := by
  obtain ⟨hlen, hsf, hmem⟩ := h
  cases hr : env.completeResp with
  | ok d =>
    have h1 : Inv { st with result := some d, status := "Completed" } :=
      ⟨hlen, hsf, hmem⟩
    have h2 := stopStream_clears _ h1
    simpa [completeSession, hr] using h2
  | error e =>
    have h1 : Inv { st with status := "No face detected. You can use Manual Present." } :=
      ⟨hlen, hsf, hmem⟩
    have h2 := stopStream_clears _ h1
    simpa [completeSession, hr] using h2

/-- startSession preserves the resource invariant from any state with
no live stream (which the disabled-while-streaming start button
guarantees at every real call site). -/
theorem startSession_inv (env : Env) (st : CompState) (hlive : st.liveStreams = []) :
    Inv (startSession env st).1 := by
  cases hc : env.camera with
  | none =>
    exact inv_of_no_live _ (by simp [startSession, hc, hlive])
  | some m =>
    cases hs : env.startResp with
    | error e =>
      refine ⟨?_, ?_, ?_⟩
      · simp [startSession, hc, hs, hlive]
      · simp [startSession, hc, hs]
      · intro s hmem
        simp [startSession, hc, hs, hlive] at hmem
        simp [startSession, hc, hs, hmem]
    | ok sid =>
      have hmid : Inv { st with
          result := none, status := "Streaming frames..."
          srcObject := some m, liveStreams := m :: st.liveStreams
          streaming := true, sessionId := some sid } := by
        refine ⟨by simp [hlive], by simp, ?_⟩
        intro s hmem
        simp [hlive] at hmem
        simp [hmem]
      have h2 := completeSession_clears env sid _ hmid
      have h3 : (startSession env st).1 =
          (completeSession env sid { st with
            result := none, status := "Streaming frames..."
            srcObject := some m, liveStreams := m :: st.liveStreams
            streaming := true, sessionId := some sid }).1 := by
        simp [startSession, hc, hs, streamFrames, runFrames_eq]
      rw [h3]
      exact inv_of_no_live _ h2.1

/-- Every user action preserves the resource invariant. -/
theorem step_inv (env : Env) (a : Action) (st : CompState) (h : Inv st) :
    Inv (step env a st).1 := by
  cases a with
  | clickStart =>
    by_cases hb : st.streaming = true
    · simpa [step, hb] using h
    · have hf : st.streaming = false := by
        cases hv : st.streaming
        · rfl
        · exact absurd hv hb
      have hlive : st.liveStreams = [] := h.2.1 hf
      simpa [step, hf] using startSession_inv env st hlive
  | clickManual =>
    obtain ⟨hlen, hsf, hmem⟩ := h
    cases hr : env.manualResp with
    | ok d => exact ⟨by simpa [step, manualPresent, hr] using hlen,
        by simpa [step, manualPresent, hr] using hsf,
        by simpa [step, manualPresent, hr] using hmem⟩
    | error e => exact ⟨by simpa [step, manualPresent, hr] using hlen,
        by simpa [step, manualPresent, hr] using hsf,
        by simpa [step, manualPresent, hr] using hmem⟩
  | unmount =>
    have h2 := stopStream_clears st h
    exact inv_of_no_live _ h2.1

/-- Every state reachable by a history of user actions from an
invariant state satisfies the resource invariant. -/
theorem runActs_inv (l : List (Env × Action)) (st : CompState) (h : Inv st) :
    Inv (runActs l st) := by
  induction l generalizing st with
  | nil => exact h
  | cons p rest ih =>
    obtain ⟨e, a⟩ := p
    exact ih _ (step_inv e a st h)

/-- C3: along every history of user actions from the initial state, at
most one camera stream is live at a time (the session handle is a
single optional field, so at most one handle exists by construction),
and whenever the streaming flag is up the start action is a no-op —
the disabled button fires no handler, so a second session cannot be
started while one is active. -/
theorem C3_at_most_one_stream_and_disabled_start (l : List (Env × Action)) :
    (runActs l initState).liveStreams.length ≤ 1 ∧
    ∀ env, (runActs l initState).streaming = true →
      step env Action.clickStart (runActs l initState) = (runActs l initState, []) := by
  refine ⟨(runActs_inv l initState initState_inv).1, ?_⟩
  intro env h
  simp [step, h]

/-- Witness for C3 on the concrete one-step history that starts a
session whose backend start request fails: the state keeps a single
live stream and a further start click is a no-op. -/
theorem C3_at_most_one_stream_and_disabled_start_witness :
    (runActs [(envStartFail, Action.clickStart)] initState).liveStreams.length ≤ 1 ∧
    step envAllOk Action.clickStart (runActs [(envStartFail, Action.clickStart)] initState)
      = (runActs [(envStartFail, Action.clickStart)] initState, []) :=
  ⟨(C3_at_most_one_stream_and_disabled_start [(envStartFail, Action.clickStart)]).1,
   (C3_at_most_one_stream_and_disabled_start [(envStartFail, Action.clickStart)]).2
     envAllOk (by decide)⟩

/-- C4 counterexample: when the camera is granted but the backend
session-start request fails, the catch of startSession only sets the
status string — the state after the click has the streaming flag
still up and stream 0 still live, and a further start click is a
no-op, so this failure does not return the component to an idle,
restartable state and does not release the acquired camera stream. -/
theorem C4_counterexample_start_failure_sticks :
    (step envStartFail Action.clickStart initState).1.streaming = true ∧
    (step envStartFail Action.clickStart initState).1.liveStreams = [0] ∧
    step envStartFail Action.clickStart (step envStartFail Action.clickStart initState).1
      = ((step envStartFail Action.clickStart initState).1, []) := by
  refine ⟨?_, ?_, ?_⟩ <;> decide

/-- C4 (amended): every failure class except a backend session-start
failure returns the component to an idle, restartable state with all
acquired resources released: starting from an idle state, a start
click under camera denial, or under a granted camera with the start
request succeeding (whatever the per-frame and completion oracles
answer — including every per-frame send and the completion failing),
ends with the streaming flag down and no live stream; and a manual
click never changes the streaming flag or the live streams.  A
session-start request failure, by contrast, leaves the streaming
flag up and the stream live (see the counterexample). -/
theorem C4_amended_idle_after_other_failures (env : Env) (st : CompState)
    (hstream : st.streaming = false) (hlive : st.liveStreams = [])
    (h : env.camera = none ∨ ∃ sid, env.startResp = Except.ok sid) :
    ((step env Action.clickStart st).1.streaming = false ∧
      (step env Action.clickStart st).1.liveStreams = []) ∧
    ((step env Action.clickManual st).1.streaming = st.streaming ∧
      (step env Action.clickManual st).1.liveStreams = st.liveStreams) := by
  constructor
  · rcases h with hc | ⟨sid, hs⟩
    · constructor <;> simp [step, hstream, startSession, hc, hlive]
    · cases hc : env.camera with
      | none => constructor <;> simp [step, hstream, startSession, hc, hlive]
      | some m =>
        have hmid : Inv { st with
            result := none, status := "Streaming frames..."
            srcObject := some m, liveStreams := m :: st.liveStreams
            streaming := true, sessionId := some sid } := by
          refine ⟨by simp [hlive], by simp, ?_⟩
          intro s hmem
          simp [hlive] at hmem
          simp [hmem]
        have h2 := completeSession_clears env sid _ hmid
        have h3 : (step env Action.clickStart st).1 =
            (completeSession env sid { st with
              result := none, status := "Streaming frames..."
              srcObject := some m, liveStreams := m :: st.liveStreams
              streaming := true, sessionId := some sid }).1 := by
          simp [step, hstream, startSession, hc, hs, streamFrames, runFrames_eq]
        rw [h3]
        exact ⟨h2.2, h2.1⟩
  · cases hr : env.manualResp with
    | ok d => constructor <;> simp [step, manualPresent, hr]
    | error e => constructor <;> simp [step, manualPresent, hr]

/-- Witness for the amended C4: camera denial from the idle state
leaves the component idle with no live stream, and a manual click
from the idle state touches neither. -/
theorem C4_amended_idle_after_other_failures_witness :
    ((step envDenied Action.clickStart initState).1.streaming = false ∧
      (step envDenied Action.clickStart initState).1.liveStreams = []) ∧
    ((step envDenied Action.clickManual initState).1.streaming = initState.streaming ∧
      (step envDenied Action.clickManual initState).1.liveStreams = initState.liveStreams) :=
  C4_amended_idle_after_other_failures envDenied initState rfl rfl (Or.inl rfl)

end FaceSense
